import Mathlib

/-!
Verification of the OAuth 2.1 authentication and session-persistence subsystem
of drive-synapsis, shallowly embedded from:
  - src/drive_synapsis/auth/oauth21_session_store.py
  - src/drive_synapsis/auth/google_auth.py
  - src/drive_synapsis/auth/credential_store.py
  - src/drive_synapsis/auth/scopes.py

Modelling conventions:
  - Python `dict` (insertion-ordered, unique keys) is embedded as an
    association list `List (String × α)` with insert-replace, ordered lookup
    and key-removal operations mirroring dict semantics.  The dict invariant
    (no duplicate keys) is the predicate `DictWF`.
  - `datetime` instants are embedded as natural-number epoch seconds; the
    dict value `None`/key-absent is `Option.none`.  Python truthiness of an
    optional string (`None` and `""` are falsy) is `truthyStr`.
  - Fallible operations (`raise ValueError`) return `Except String α`,
    carrying the exact message raised by the source.
-/

namespace DriveSynapsis

/-- Ordered lookup in an association list, as Python `dict.get`. -/
def dictGet {α : Type} : List (String × α) → String → Option α
  | [], _ => none
  | kv :: rest, k => if kv.1 = k then some kv.2 else dictGet rest k

/-- `d[k] = v` on a Python dict: replace in place if the key is present,
append otherwise (dicts preserve insertion order). -/
def dictInsert {α : Type} : List (String × α) → String → α → List (String × α)
  | [], k, v => [(k, v)]
  | kv :: rest, k, v => if kv.1 = k then (k, v) :: rest else kv :: dictInsert rest k v

/-- `del d[k]` on a Python dict. -/
def dictRemove {α : Type} (m : List (String × α)) (k : String) : List (String × α) :=
  m.filter (fun kv => kv.1 ≠ k)

/-- The dict invariant: keys are pairwise distinct. -/
def DictWF {α : Type} (m : List (String × α)) : Prop :=
  List.Pairwise (fun a b => a.1 ≠ b.1) m

/-- Python truthiness of an `Optional[str]`: `None` and `""` are falsy. -/
def truthyStr : Option String → Bool
  | none => false
  | some s => s ≠ ""

/-- One entry of `OAuth21SessionStore._oauth_states`: the dict
`{"session_id": ..., "expires_at": ..., "created_at": ...}` built by
`store_oauth_state` (oauth21_session_store.py:198-202).  Timestamps are
optional because loading from disk leaves absent/null fields unset. -/
structure StateData where
  session_id : Option String
  expires_at : Option Nat
  created_at : Option Nat
  deriving Repr, DecidableEq

/-- The expiry test of `_cleanup_expired_oauth_states_locked`
(oauth21_session_store.py:99): `data.get("expires_at") and
data["expires_at"] <= now` — an absent/None expiry is never expired
(a datetime object itself is always truthy). -/
def isExpired (now : Nat) (d : StateData) : Bool :=
  match d.expires_at with
  | some e => e ≤ now
  | none => false

/-- `OAuth21SessionStore._cleanup_expired_oauth_states_locked`
(oauth21_session_store.py:93-103): delete every entry whose expiry
has passed. -/
def cleanupExpiredOauthStates (now : Nat) (m : List (String × StateData)) :
    List (String × StateData) :=
  m.filter (fun kv => ¬ isExpired now kv.2)

/-- `OAuth21SessionStore.store_oauth_state` (oauth21_session_store.py:178-210):
validates arguments, sweeps expired states, then inserts
`{"session_id": session_id, "expires_at": now + expires_in_seconds,
"created_at": now}`.  `expires_in_seconds` is an `int`, so it is embedded as
`Int` to keep the negativity guard meaningful. -/
def store_oauth_state (now : Nat) (state : String) (session_id : Option String)
    (expires_in_seconds : Int) (m : List (String × StateData)) :
    Except String (List (String × StateData)) :=
  if state = "" then .error "OAuth state must be provided"
  else if expires_in_seconds < 0 then .error "expires_in_seconds must be non-negative"
  else
    let m1 := cleanupExpiredOauthStates now m
    .ok (dictInsert m1 state
      { session_id := session_id
        expires_at := some (now + expires_in_seconds.toNat)
        created_at := some now })

/-- `OAuth21SessionStore.validate_and_consume_oauth_state`
(oauth21_session_store.py:212-256).  Returns the outcome together with the
resulting states table, because the session-mismatch branch also deletes the
state before raising. -/
def validate_and_consume_oauth_state (now : Nat) (state : String)
    (session_id : Option String) (m : List (String × StateData)) :
    Except String StateData × List (String × StateData) :=
  if state = "" then (.error "Missing OAuth state parameter", m)
  else
    let m1 := cleanupExpiredOauthStates now m
    match dictGet m1 state with
    | none => (.error "Invalid or expired OAuth state parameter", m1)
    | some state_info =>
      if truthyStr state_info.session_id ∧ truthyStr session_id ∧
          state_info.session_id ≠ session_id then
        (.error "OAuth state does not match the initiating session",
          dictRemove m1 state)
      else
        (.ok state_info, dictRemove m1 state)

/-- One entry of `OAuth21SessionStore._sessions`, the dict built by
`store_session` (oauth21_session_store.py:286-295). -/
structure SessionInfo where
  access_token : String
  refresh_token : Option String
  token_uri : String
  client_id : Option String
  client_secret : Option String
  scopes : List String
  expiry : Option Int
  session_id : Option String
  deriving Repr, DecidableEq

/-- `OAuth21SessionStore.get_single_user_email`
(oauth21_session_store.py:383-388): the sole key when exactly one session
exists (`next(iter(...))` is the first key), `None` otherwise. -/
def get_single_user_email (sessions : List (String × SessionInfo)) : Option String :=
  if sessions.length = 1 then (sessions.head?).map (·.1) else none

/-! ### Persistence of the OAuth-state table
`_save_oauth_states_to_disk` writes each timestamp with
`datetime.isoformat` and `_load_oauth_states_from_disk` restores it with
`datetime.fromisoformat`; these are exactly inverse on UTC instants.  The
embedding renders an instant (epoch seconds) as its decimal digit string and
parses it back — the same injective-encoding/exact-parse structure. -/

/-- The decimal digit character for `d < 10`, by code point. -/
def digitChar (d : Nat) : Char :=
  Char.ofNat (48 + d)

/-- Decimal digit value of a character, `none` on a non-digit. -/
def charToDigit (c : Char) : Option Nat :=
  if 48 ≤ c.toNat ∧ c.toNat ≤ 57 then some (c.toNat - 48) else none

/-- Decimal digits of `n`, least significant first (`[]` for 0). -/
def natDigitsRev (n : Nat) : List Char :=
  if h : n = 0 then []
  else digitChar (n % 10) :: natDigitsRev (n / 10)
termination_by n
decreasing_by exact Nat.div_lt_self (Nat.pos_of_ne_zero h) (by norm_num)

/-- Render an instant as its decimal timestamp string
(models `datetime.isoformat`). -/
def natToIso (n : Nat) : List Char :=
  if n = 0 then ['0'] else (natDigitsRev n).reverse

/-- Left-to-right decimal accumulation; fails on a non-digit. -/
def isoToNatAux : List Char → Nat → Option Nat
  | [], acc => some acc
  | c :: rest, acc =>
    match charToDigit c with
    | some d => isoToNatAux rest (acc * 10 + d)
    | none => none

/-- Parse a decimal timestamp string back to an instant
(models `datetime.fromisoformat`, which fails on malformed input). -/
def isoToNat : List Char → Option Nat
  | [] => none
  | c :: rest => isoToNatAux (c :: rest) 0

/-- One entry of the persisted `oauth_states.json` file, as written by
`_save_oauth_states_to_disk` (oauth21_session_store.py:150-158):
`{"session_id": ..., "expires_at": iso-or-null, "created_at": iso-or-null}`. -/
structure PersistedEntry where
  session_id : Option String
  expires_at : Option (List Char)
  created_at : Option (List Char)
  deriving Repr, DecidableEq

/-- Serialization of one in-memory state entry
(oauth21_session_store.py:150-158). -/
def serializeStateData (d : StateData) : PersistedEntry :=
  { session_id := d.session_id
    expires_at := d.expires_at.map natToIso
    created_at := d.created_at.map natToIso }

/-- `OAuth21SessionStore._save_oauth_states_to_disk`
(oauth21_session_store.py:145-176): the JSON object written to disk. -/
def saveOauthStates (m : List (String × StateData)) : List (String × PersistedEntry) :=
  m.map (fun kv => (kv.1, serializeStateData kv.2))

/-- The per-field conversion of `_load_oauth_states_from_disk`
(oauth21_session_store.py:122-125): a present, truthy string is parsed
(parse failure raises and skips the entry); an absent or falsy field is
left unset — an empty string would be kept verbatim, but every later
operation treats it exactly like an absent expiry (falsy), so it is
embedded as `none`. -/
def parseOptTimestamp : Option (List Char) → Option (Option Nat)
  | none => some none
  | some s => if s = [] then some none else (isoToNat s).map some

/-- Reconstruction of one persisted entry; `none` when a timestamp fails to
parse, in which case the loader skips the entry
(oauth21_session_store.py:120-129). -/
def parsePersistedEntry (p : PersistedEntry) : Option StateData :=
  match parseOptTimestamp p.expires_at with
  | none => none
  | some ea =>
    match parseOptTimestamp p.created_at with
    | none => none
    | some ca => some { session_id := p.session_id, expires_at := ea, created_at := ca }

/-- `OAuth21SessionStore._load_oauth_states_from_disk` followed by the
constructor's immediate sweep (oauth21_session_store.py:105-136): each
parseable entry is inserted into the fresh (empty) table, then expired
entries are removed. -/
def loadOauthStates (now : Nat) (persisted : List (String × PersistedEntry)) :
    List (String × StateData) :=
  let loaded := persisted.foldl
    (fun acc kv =>
      match parsePersistedEntry kv.2 with
      | some d => dictInsert acc kv.1 d
      | none => acc) []
  cleanupExpiredOauthStates now loaded

/-! ### Credential resolution (`google_auth.get_credentials`) -/

/-- The `google.oauth2.credentials.Credentials` object as observable by this
code: the constructor fields passed at oauth21_session_store.py:324-332 and
credential_store.py:127-135.  `expiry` is epoch seconds (naive UTC). -/
structure Credential where
  token : Option String
  refresh_token : Option String
  token_uri : Option String
  client_id : Option String
  client_secret : Option String
  scopes : Option (List String)
  expiry : Option Int
  deriving Repr, DecidableEq

/-- `google.auth` clock skew applied by `Credentials.expired`
(external library behaviour, 10 seconds). -/
def CLOCK_SKEW : Int := 10

/-- `Credentials.expired` of the google-auth library: false when no expiry
is set, otherwise true once `now` reaches the skewed expiry. -/
def credentialExpired (now : Int) (c : Credential) : Bool :=
  match c.expiry with
  | none => false
  | some e => e - CLOCK_SKEW ≤ now

/-- `Credentials.valid` of the google-auth library: a token is present and
not expired. -/
def credentialValid (now : Int) (c : Credential) : Bool :=
  c.token.isSome && !credentialExpired now c

/-- In-memory session store as consulted by credential resolution:
`_sessions` (email → session info) and `_session_mapping`
(session id → email). -/
structure OAuthStore where
  sessions : List (String × SessionInfo)
  session_mapping : List (String × String)
  deriving Repr

/-- `OAuth21SessionStore.get_credentials`
(oauth21_session_store.py:307-339): rebuild a `Credentials` object from the
stored session info; `None` when the user has no session.  The store coerced
`scopes` to a list on entry (`scopes or []`), so the rebuilt credential
always carries `some` scopes. -/
def storeGetCredentials (sessions : List (String × SessionInfo)) (user_email : String) :
    Option Credential :=
  match dictGet sessions user_email with
  | none => none
  | some info => some
    { token := some info.access_token
      refresh_token := info.refresh_token
      token_uri := some info.token_uri
      client_id := info.client_id
      client_secret := info.client_secret
      scopes := some info.scopes
      expiry := info.expiry }

/-- `OAuth21SessionStore.get_credentials_by_session`
(oauth21_session_store.py:341-357): indirect through the session-id →
email mapping; a falsy mapped email yields `None`. -/
def get_credentials_by_session (store : OAuthStore) (session_id : String) :
    Option Credential :=
  match dictGet store.session_mapping session_id with
  | none => none
  | some user_email =>
    if user_email = "" then none
    else storeGetCredentials store.sessions user_email

/-- The JSON fields of one per-user credential file as read by
`LocalDirectoryCredentialStore.get_credential` (credential_store.py:104-142). -/
structure CredFile where
  token : Option String
  refresh_token : Option String
  token_uri : Option String
  client_id : Option String
  client_secret : Option String
  scopes : Option (List String)
  expiry : Option Int
  deriving Repr, DecidableEq

/-- The file-based credential store, keyed by user email (the on-disk key is
the reversible filename encoding of the email, verified separately). -/
def CredStore : Type := List (String × CredFile)

/-- `LocalDirectoryCredentialStore.get_credential`
(credential_store.py:104-142): deserialize the user's file into a
`Credentials` object, `None` when the file is absent. -/
def credStoreGetCredential (cs : CredStore) (user_email : String) : Option Credential :=
  match dictGet cs user_email with
  | none => none
  | some f => some
    { token := f.token
      refresh_token := f.refresh_token
      token_uri := f.token_uri
      client_id := f.client_id
      client_secret := f.client_secret
      scopes := f.scopes
      expiry := f.expiry }

/-- `LocalDirectoryCredentialStore.list_users` (credential_store.py:180-201):
the sorted list of emails decoded from the credential filenames. -/
def credStoreListUsers (cs : CredStore) : List String :=
  List.insertionSort (fun a b => a ≤ b) (cs.map Prod.fst)

/-- `SCOPES` of scopes.py:40-44. -/
def SCOPES : List String :=
  [ "https://www.googleapis.com/auth/drive"
  , "https://www.googleapis.com/auth/documents"
  , "https://www.googleapis.com/auth/spreadsheets"
  , "https://www.googleapis.com/auth/userinfo.email"
  , "https://www.googleapis.com/auth/userinfo.profile"
  , "openid" ]

/-- The resolution cascade of `google_auth.get_credentials`
(google_auth.py:400-432): (1) by session id, (2) by email in the session
store then the file store, (3) single-user fallback in the session store,
(4) single-user fallback in the file store.  Python truthiness guards
(`if session_id:`, `if ... and user_email:`, `if single_user:`) are the
emptiness tests. -/
def resolveCredential (store : OAuthStore) (cs : CredStore)
    (user_email : Option String) (session_id : Option String) : Option Credential :=
  let c1 : Option Credential :=
    match session_id with
    | some sid => if sid ≠ "" then get_credentials_by_session store sid else none
    | none => none
  let c2 : Option Credential :=
    match c1 with
    | some c => some c
    | none =>
      match user_email with
      | some email =>
        if email ≠ "" then
          match storeGetCredentials store.sessions email with
          | some c => some c
          | none => credStoreGetCredential cs email
        else none
      | none => none
  let c3 : Option Credential :=
    match c2 with
    | some c => some c
    | none =>
      match get_single_user_email store.sessions with
      | some su =>
        if su ≠ "" then
          match storeGetCredentials store.sessions su with
          | some c => some c
          | none => credStoreGetCredential cs su
        else none
      | none => none
  match c3 with
  | some c => some c
  | none =>
    match credStoreListUsers cs with
    | [su] => credStoreGetCredential cs su
    | _ => none

/-- The validity/refresh tail of `google_auth.get_credentials`
(google_auth.py:444-480): return a valid credential as is; refresh an
expired one that has a refresh token (`refreshFn` is the external
`credentials.refresh(Request())` network call, `none` on `RefreshError`);
otherwise no usable credential.  The write-back of a refreshed credential
mutates only the stores, never the returned value. -/
def credentialAfterValidity (now : Int) (refreshFn : Credential → Option Credential)
    (c : Credential) : Option Credential :=
  if credentialValid now c then some c
  else if credentialExpired now c && truthyStr c.refresh_token then refreshFn c
  else none

/-- `google_auth.get_credentials` (google_auth.py:377-480): default the
required scopes to `SCOPES`, resolve a credential through the cascade,
apply the scope check (google_auth.py:439-442: only when the granted scope
list is truthy, i.e. present and non-empty), then validity/refresh. -/
def get_credentials (now : Int) (store : OAuthStore) (cs : CredStore)
    (refreshFn : Credential → Option Credential)
    (user_email : Option String) (required_scopes : Option (List String))
    (session_id : Option String) : Option Credential :=
  let required := match required_scopes with | none => SCOPES | some rs => rs
  match resolveCredential store cs user_email session_id with
  | none => none
  | some credentials =>
    match credentials.scopes with
    | some granted =>
      if granted ≠ [] then
        if ¬ (required.all (fun s => granted.contains s)) then none
        else credentialAfterValidity now refreshFn credentials
      else credentialAfterValidity now refreshFn credentials
    | none => credentialAfterValidity now refreshFn credentials

/-! ### Credential filename encoding (`credential_store.py:75-96`)

`_email_to_filename` applies `base64.urlsafe_b64encode` to the UTF-8 bytes
of the email and strips the `=` padding; `_filename_to_email` restores the
padding and decodes.  The embedding operates on the UTF-8 byte sequence of
the email (Python's `str.encode("utf-8")`/`bytes.decode("utf-8")` bracket
the base64 step and are exactly inverse for every valid string). -/

/-- The URL-safe base64 alphabet used by `base64.urlsafe_b64encode`. -/
def b64UrlsafeAlphabet : List Char :=
  [ 'A', 'B', 'C', 'D', 'E', 'F', 'G', 'H', 'I', 'J', 'K', 'L', 'M'
  , 'N', 'O', 'P', 'Q', 'R', 'S', 'T', 'U', 'V', 'W', 'X', 'Y', 'Z'
  , 'a', 'b', 'c', 'd', 'e', 'f', 'g', 'h', 'i', 'j', 'k', 'l', 'm'
  , 'n', 'o', 'p', 'q', 'r', 's', 't', 'u', 'v', 'w', 'x', 'y', 'z'
  , '0', '1', '2', '3', '4', '5', '6', '7', '8', '9', '-', '_' ]

/-- Alphabet character of a six-bit value. -/
def sextetToChar (n : Nat) : Char :=
  b64UrlsafeAlphabet.getD n 'A'

/-- Six-bit value of an alphabet character, `none` outside the alphabet. -/
def charToSextet (c : Char) : Option Nat :=
  b64UrlsafeAlphabet.findIdx? (fun x => x = c)

/-- `base64.urlsafe_b64encode` on a byte sequence: every group of three
bytes becomes four alphabet characters; a trailing group of one or two
bytes is padded with `=`. -/
def b64EncodeBytes : List Nat → List Char
  | [] => []
  | [a] => [sextetToChar (a / 4), sextetToChar (a % 4 * 16), '=', '=']
  | [a, b] =>
    [sextetToChar (a / 4), sextetToChar (a % 4 * 16 + b / 16),
     sextetToChar (b % 16 * 4), '=']
  | a :: b :: c :: rest =>
    sextetToChar (a / 4) :: sextetToChar (a % 4 * 16 + b / 16) ::
    sextetToChar (b % 16 * 4 + c / 64) :: sextetToChar (c % 64) ::
    b64EncodeBytes rest

/-- Decode one four-character base64 block (`=` padding marks a short
final group). -/
def b64DecodeBlock (c1 c2 c3 c4 : Char) : Option (List Nat) :=
  match charToSextet c1, charToSextet c2 with
  | some s1, some s2 =>
    if c3 = '=' then some [s1 * 4 + s2 / 16]
    else
      match charToSextet c3 with
      | some s3 =>
        if c4 = '=' then some [s1 * 4 + s2 / 16, s2 % 16 * 16 + s3 / 4]
        else
          match charToSextet c4 with
          | some s4 =>
            some [s1 * 4 + s2 / 16, s2 % 16 * 16 + s3 / 4, s3 % 4 * 64 + s4]
          | none => none
      | none => none
  | _, _ => none

/-- `base64.urlsafe_b64decode` on a padded string: the length must be a
multiple of four; blocks decode independently. -/
def b64DecodeChars : List Char → Option (List Nat)
  | [] => some []
  | c1 :: c2 :: c3 :: c4 :: rest =>
    match b64DecodeBlock c1 c2 c3 c4 with
    | some blockBytes =>
      match b64DecodeChars rest with
      | some tail => some (blockBytes ++ tail)
      | none => none
    | none => none
  | _ => none

/-- Python `str.rstrip("=")`: drop the trailing run of `=` characters. -/
def rstripPadding (l : List Char) : List Char :=
  (l.reverse.dropWhile (fun c => c = '=')).reverse

/-- `LocalDirectoryCredentialStore._email_to_filename`
(credential_store.py:75-84) on the email's UTF-8 bytes: URL-safe base64,
padding stripped. -/
def _email_to_filename (emailBytes : List Nat) : List Char :=
  rstripPadding (b64EncodeBytes emailBytes)

/-- The padding restoration of `_filename_to_email`
(credential_store.py:92-95): `padding = 4 - len % 4`; append that many `=`
unless it is 4. -/
def padB64 (l : List Char) : List Char :=
  if 4 - l.length % 4 ≠ 4 then l ++ List.replicate (4 - l.length % 4) '=' else l

/-- `LocalDirectoryCredentialStore._filename_to_email`
(credential_store.py:86-96), yielding the email's UTF-8 bytes. -/
def _filename_to_email (filename : List Char) : Option (List Nat) :=
  b64DecodeChars (padB64 filename)

/-- A byte sequence: every element below 256. -/
def validBytes (bs : List Nat) : Bool :=
  bs.all (fun b => b < 256)

/-! ### Call compatibility of `start_auth_flow` with the state store -/

/-- The parameter names of `OAuth21SessionStore.store_oauth_state`
(oauth21_session_store.py:178-183), beside `self`. -/
def store_oauth_state_params : List String :=
  ["state", "session_id", "expires_in_seconds"]

/-- The keyword-argument names `start_auth_flow` supplies when registering
the state (google_auth.py:219-221):
`store.store_oauth_state(oauth_state, session_id=None, code_verifier=...)`. -/
def start_auth_flow_store_kwargs : List String :=
  ["session_id", "code_verifier"]

/-- Python call semantics: a call succeeds only when every supplied keyword
argument names a parameter of the callee; otherwise `TypeError` is raised
before the body runs. -/
def callAcceptsKwargs (params kwargs : List String) : Bool :=
  kwargs.all (fun k => params.contains k)

/-- The keys of the metadata dict recorded per OAuth state
(oauth21_session_store.py:198-202), which is exactly what
`validate_and_consume_oauth_state` returns. -/
def oauth_state_metadata_keys : List String :=
  ["session_id", "expires_at", "created_at"]

/-! ### Association-list (dict) lemmas -/

theorem dictGet_insert_self {α : Type} (m : List (String × α)) (k : String) (v : α) :
    dictGet (dictInsert m k v) k = some v := by
  induction m with
  | nil => simp [dictInsert, dictGet]
  | cons kv rest ih =>
    by_cases h : kv.1 = k <;> simp [dictInsert, dictGet, h, ih]

theorem dictGet_remove_self {α : Type} (m : List (String × α)) (k : String) :
    dictGet (dictRemove m k) k = none := by
  induction m with
  | nil => simp [dictRemove, dictGet]
  | cons kv rest ih =>
    by_cases h : kv.1 = k <;> simp [dictRemove, dictGet, h] at ih ⊢ <;> exact ih

theorem dictGet_filter_none {α : Type} (m : List (String × α)) (k : String)
    (p : String × α → Bool) (h : dictGet m k = none) :
    dictGet (m.filter p) k = none := by
  induction m with
  | nil => simp [dictGet]
  | cons kv rest ih =>
    simp only [dictGet] at h
    by_cases hk : kv.1 = k
    · simp [hk] at h
    · simp only [hk, if_false] at h
      by_cases hp : p kv <;> simp [List.filter_cons, hp, dictGet, hk, ih h]

theorem dictGet_none_of_not_mem {α : Type} (m : List (String × α)) (k : String)
    (h : k ∉ m.map Prod.fst) : dictGet m k = none := by
  induction m with
  | nil => simp [dictGet]
  | cons kv rest ih =>
    simp only [List.map_cons, List.mem_cons] at h
    push_neg at h
    have h1 : ¬ kv.1 = k := fun he => h.1 he.symm
    simp [dictGet, h1, ih h.2]

theorem dictGet_cleanup_insert (m : List (String × StateData)) (k : String)
    (v : StateData) (now : Nat) (h : isExpired now v = false) :
    dictGet (cleanupExpiredOauthStates now (dictInsert m k v)) k = some v := by
  induction m with
  | nil => simp [dictInsert, cleanupExpiredOauthStates, List.filter_cons, h, dictGet]
  | cons kv rest ih =>
    by_cases hk : kv.1 = k
    · simp [dictInsert, hk, cleanupExpiredOauthStates, List.filter_cons, h, dictGet]
    · simp only [dictInsert, hk, if_false]
      by_cases he : isExpired now kv.2 <;>
        simp_all [cleanupExpiredOauthStates, List.filter_cons, dictGet, hk]

theorem dictGet_cleanup_expired (m : List (String × StateData)) (k : String)
    (d : StateData) (now : Nat) (hwf : DictWF m) (hget : dictGet m k = some d)
    (hexp : isExpired now d = true) :
    dictGet (cleanupExpiredOauthStates now m) k = none := by
  induction m with
  | nil => simp [dictGet] at hget
  | cons kv rest ih =>
    rcases hwf with _ | ⟨hhead, hrest⟩
    by_cases hk : kv.1 = k
    · simp only [dictGet, hk, if_true, Option.some.injEq] at hget
      subst hget
      have hnone : dictGet rest k = none := by
        apply dictGet_none_of_not_mem
        intro hmem
        rcases List.mem_map.mp hmem with ⟨b, hb, hb1⟩
        exact hhead b hb (by rw [hk, hb1])
      simp only [cleanupExpiredOauthStates, List.filter_cons, hexp]
      simpa using dictGet_filter_none rest k _ hnone
    · simp only [dictGet, hk, if_false] at hget
      simp only [cleanupExpiredOauthStates, List.filter_cons]
      by_cases he : isExpired now kv.2
      · simpa [he, cleanupExpiredOauthStates] using ih hrest hget
      · simp only [he, Bool.not_false, if_true]
        simpa [dictGet, hk, cleanupExpiredOauthStates] using ih hrest hget

theorem dictInsert_eq_append {α : Type} (m : List (String × α)) (k : String) (v : α)
    (h : dictGet m k = none) : dictInsert m k v = m ++ [(k, v)] := by
  induction m with
  | nil => simp [dictInsert]
  | cons kv rest ih =>
    simp only [dictGet] at h
    by_cases hk : kv.1 = k
    · simp [hk] at h
    · simp only [hk, if_false] at h
      simp [dictInsert, hk, ih h]

theorem dictGet_append {α : Type} (m1 m2 : List (String × α)) (k : String) :
    dictGet (m1 ++ m2) k =
      match dictGet m1 k with
      | some v => some v
      | none => dictGet m2 k := by
  induction m1 with
  | nil => simp [dictGet]
  | cons kv rest ih =>
    by_cases hk : kv.1 = k <;> simp [dictGet, hk, ih]

/-! ### Behaviour of the OAuth-state operations -/

theorem store_oauth_state_ok (m : List (String × StateData)) (now : Nat)
    (state : String) (sid : Option String) (ttl : Int)
    (hstate : state ≠ "") (httl : 0 ≤ ttl) :
    store_oauth_state now state sid ttl m =
      .ok (dictInsert (cleanupExpiredOauthStates now m) state
        { session_id := sid, expires_at := some (now + ttl.toNat),
          created_at := some now }) := by
  simp [store_oauth_state, hstate, not_lt.mpr httl]

theorem validate_absent_state (m : List (String × StateData)) (now : Nat)
    (state : String) (vsid : Option String)
    (hstate : state ≠ "") (hnone : dictGet m state = none) :
    (validate_and_consume_oauth_state now state vsid m).1 =
      .error "Invalid or expired OAuth state parameter" := by
  simp [validate_and_consume_oauth_state, hstate, cleanupExpiredOauthStates,
    dictGet_filter_none _ _ _ hnone]

/-- C2: a state stored and not yet expired is returned with its stored
metadata by the first validate-and-consume (matching or absent session id),
and a second call on the same state value fails with the
invalid-or-expired error: single use. -/
theorem oauth_state_single_use
    (m m1 : List (String × StateData)) (now1 now2 now3 : Nat) (state : String)
    (sid vsid vsid2 : Option String) (ttl : Int)
    (hstate : state ≠ "") (httl : 0 ≤ ttl)
    (hfresh : now2 < now1 + ttl.toNat)
    (hmatch : vsid = sid ∨ vsid = none)
    (hok : store_oauth_state now1 state sid ttl m = .ok m1) :
    (validate_and_consume_oauth_state now2 state vsid m1).1 =
      .ok { session_id := sid, expires_at := some (now1 + ttl.toNat),
            created_at := some now1 } ∧
    (validate_and_consume_oauth_state now3 state vsid2
        (validate_and_consume_oauth_state now2 state vsid m1).2).1 =
      .error "Invalid or expired OAuth state parameter" := by
  rw [store_oauth_state_ok m now1 state sid ttl hstate httl] at hok
  have hm1 : m1 = dictInsert (cleanupExpiredOauthStates now1 m) state
      { session_id := sid, expires_at := some (now1 + ttl.toNat),
        created_at := some now1 } := by
    injection hok with h
    exact h.symm
  subst hm1
  have hunexp : isExpired now2
      ({ session_id := sid, expires_at := some (now1 + ttl.toNat),
         created_at := some now1 } : StateData) = false := by
    simp [isExpired]
    omega
  have hget := dictGet_cleanup_insert (cleanupExpiredOauthStates now1 m) state
    { session_id := sid, expires_at := some (now1 + ttl.toNat),
      created_at := some now1 } now2 hunexp
  have hcond : ¬ (truthyStr sid ∧ truthyStr vsid ∧ sid ≠ vsid) := by
    rcases hmatch with rfl | rfl
    · rintro ⟨-, -, hne⟩
      exact hne rfl
    · rintro ⟨-, h2, -⟩
      simp [truthyStr] at h2
  have hfirst : validate_and_consume_oauth_state now2 state vsid
      (dictInsert (cleanupExpiredOauthStates now1 m) state
        { session_id := sid, expires_at := some (now1 + ttl.toNat),
          created_at := some now1 }) =
      (.ok { session_id := sid, expires_at := some (now1 + ttl.toNat),
             created_at := some now1 },
       dictRemove (cleanupExpiredOauthStates now2
         (dictInsert (cleanupExpiredOauthStates now1 m) state
           { session_id := sid, expires_at := some (now1 + ttl.toNat),
             created_at := some now1 })) state) := by
    simp [validate_and_consume_oauth_state, hstate, hget, hcond]
  refine ⟨by rw [hfirst], ?_⟩
  rw [hfirst]
  exact validate_absent_state _ now3 state vsid2 hstate
    (dictGet_remove_self _ state)

/-- C3: validating a state bound to session `s1` with a different non-empty
session id `s2` fails with the session-mismatch error and deletes the state,
so every subsequent validation of the same state value fails with the
invalid-or-expired error. -/
theorem oauth_state_session_mismatch_destroys
    (m m1 : List (String × StateData)) (now1 now2 : Nat) (state s1 s2 : String)
    (ttl : Int) (hstate : state ≠ "") (hs1 : s1 ≠ "") (hs2 : s2 ≠ "")
    (hdiff : s1 ≠ s2) (httl : 0 ≤ ttl) (hfresh : now2 < now1 + ttl.toNat)
    (hok : store_oauth_state now1 state (some s1) ttl m = .ok m1) :
    (validate_and_consume_oauth_state now2 state (some s2) m1).1 =
      .error "OAuth state does not match the initiating session" ∧
    dictGet (validate_and_consume_oauth_state now2 state (some s2) m1).2 state =
      none ∧
    ∀ (now3 : Nat) (vsid3 : Option String),
      (validate_and_consume_oauth_state now3 state vsid3
        (validate_and_consume_oauth_state now2 state (some s2) m1).2).1 =
      .error "Invalid or expired OAuth state parameter" := by
  rw [store_oauth_state_ok m now1 state (some s1) ttl hstate httl] at hok
  have hm1 : m1 = dictInsert (cleanupExpiredOauthStates now1 m) state
      { session_id := some s1, expires_at := some (now1 + ttl.toNat),
        created_at := some now1 } := by
    injection hok with h
    exact h.symm
  subst hm1
  have hunexp : isExpired now2
      ({ session_id := some s1, expires_at := some (now1 + ttl.toNat),
         created_at := some now1 } : StateData) = false := by
    simp [isExpired]
    omega
  have hget := dictGet_cleanup_insert (cleanupExpiredOauthStates now1 m) state
    { session_id := some s1, expires_at := some (now1 + ttl.toNat),
      created_at := some now1 } now2 hunexp
  have hcond : truthyStr (some s1) ∧ truthyStr (some s2) ∧
      (some s1 : Option String) ≠ some s2 := by
    refine ⟨by simp [truthyStr, hs1], by simp [truthyStr, hs2], by simp [hdiff]⟩
  have hrun : validate_and_consume_oauth_state now2 state (some s2)
      (dictInsert (cleanupExpiredOauthStates now1 m) state
        { session_id := some s1, expires_at := some (now1 + ttl.toNat),
          created_at := some now1 }) =
      (.error "OAuth state does not match the initiating session",
       dictRemove (cleanupExpiredOauthStates now2
         (dictInsert (cleanupExpiredOauthStates now1 m) state
           { session_id := some s1, expires_at := some (now1 + ttl.toNat),
             created_at := some now1 })) state) := by
    simp [validate_and_consume_oauth_state, hstate, hget, hcond]
  refine ⟨by rw [hrun], by rw [hrun]; exact dictGet_remove_self _ state, ?_⟩
  intro now3 vsid3
  rw [hrun]
  exact validate_absent_state _ now3 state vsid3 hstate
    (dictGet_remove_self _ state)

/-- C9: a state stored with a bound non-empty session id validates
successfully when the caller supplies no session id: the state is consumed
and its metadata returned — the mismatch branch needs both session ids
truthy. -/
theorem bound_state_validates_without_session
    (m m1 : List (String × StateData)) (now1 now2 : Nat) (state s1 : String)
    (ttl : Int) (hstate : state ≠ "") (hs1 : s1 ≠ "")
    (httl : 0 ≤ ttl) (hfresh : now2 < now1 + ttl.toNat)
    (hok : store_oauth_state now1 state (some s1) ttl m = .ok m1) :
    (validate_and_consume_oauth_state now2 state none m1).1 =
      .ok { session_id := some s1, expires_at := some (now1 + ttl.toNat),
            created_at := some now1 } ∧
    dictGet (validate_and_consume_oauth_state now2 state none m1).2 state =
      none := by
  rw [store_oauth_state_ok m now1 state (some s1) ttl hstate httl] at hok
  have hm1 : m1 = dictInsert (cleanupExpiredOauthStates now1 m) state
      { session_id := some s1, expires_at := some (now1 + ttl.toNat),
        created_at := some now1 } := by
    injection hok with h
    exact h.symm
  subst hm1
  have hunexp : isExpired now2
      ({ session_id := some s1, expires_at := some (now1 + ttl.toNat),
         created_at := some now1 } : StateData) = false := by
    simp [isExpired]
    omega
  have hget := dictGet_cleanup_insert (cleanupExpiredOauthStates now1 m) state
    { session_id := some s1, expires_at := some (now1 + ttl.toNat),
      created_at := some now1 } now2 hunexp
  have hcond : ¬ (truthyStr (some s1) ∧ truthyStr (none : Option String) ∧
      (some s1 : Option String) ≠ none) := by
    rintro ⟨-, h2, -⟩
    simp [truthyStr] at h2
  have hrun : validate_and_consume_oauth_state now2 state none
      (dictInsert (cleanupExpiredOauthStates now1 m) state
        { session_id := some s1, expires_at := some (now1 + ttl.toNat),
          created_at := some now1 }) =
      (.ok { session_id := some s1, expires_at := some (now1 + ttl.toNat),
             created_at := some now1 },
       dictRemove (cleanupExpiredOauthStates now2
         (dictInsert (cleanupExpiredOauthStates now1 m) state
           { session_id := some s1, expires_at := some (now1 + ttl.toNat),
             created_at := some now1 })) state) := by
    simp [validate_and_consume_oauth_state, hstate, hget, hcond, truthyStr]
  exact ⟨by rw [hrun], by rw [hrun]; exact dictGet_remove_self _ state⟩

/-- C6: a state whose expiry has passed is swept before the lookup and
validation fails with the invalid-or-expired error; the swept state is
gone from the resulting table. -/
theorem expired_state_never_validates
    (m : List (String × StateData)) (now : Nat) (state : String)
    (vsid : Option String) (d : StateData) (e : Nat)
    (hwf : DictWF m) (hstate : state ≠ "")
    (hget : dictGet m state = some d) (hexp : d.expires_at = some e)
    (he : e ≤ now) :
    dictGet (cleanupExpiredOauthStates now m) state = none ∧
    (validate_and_consume_oauth_state now state vsid m).1 =
      .error "Invalid or expired OAuth state parameter" ∧
    dictGet (validate_and_consume_oauth_state now state vsid m).2 state =
      none := by
  have hisexp : isExpired now d = true := by simp [isExpired, hexp, he]
  have hnone := dictGet_cleanup_expired m state d now hwf hget hisexp
  refine ⟨hnone, ?_, ?_⟩
  · simp [validate_and_consume_oauth_state, hstate, hnone]
  · simp [validate_and_consume_oauth_state, hstate, hnone]

/-- C8: `get_single_user_email` returns the sole email when exactly one
session is stored and `none` when zero or two-or-more are stored. -/
theorem single_user_email_spec (sessions : List (String × SessionInfo)) :
    (∀ (e : String) (info : SessionInfo), sessions = [(e, info)] →
      get_single_user_email sessions = some e) ∧
    (sessions.length ≠ 1 → get_single_user_email sessions = none) := by
  constructor
  · rintro e info rfl
    simp [get_single_user_email]
  · intro h
    simp [get_single_user_email, h]

/-- C1 (code bug): `start_auth_flow` registers the state by passing a
`code_verifier` keyword argument that `store_oauth_state` does not accept —
the call raises `TypeError` — and the metadata recorded per state (what
`validate_and_consume_oauth_state` returns) has no `code_verifier` key, so
the PKCE verifier is never stored with the state nor returned. -/
theorem start_auth_flow_verifier_never_stored :
    callAcceptsKwargs store_oauth_state_params start_auth_flow_store_kwargs =
      false ∧
    oauth_state_metadata_keys.contains "code_verifier" = false := by
  constructor
  · rfl
  · rfl

/-- C10: when the resolved credential's granted-scopes field is `None` or
the empty list, the required-scopes check is skipped: a valid credential is
returned as is, whatever the required scopes. -/
theorem scope_check_skipped_when_scopes_falsy
    (now : Int) (store : OAuthStore) (cs : CredStore)
    (refreshFn : Credential → Option Credential)
    (user_email : Option String) (required_scopes : Option (List String))
    (session_id : Option String) (c : Credential)
    (hres : resolveCredential store cs user_email session_id = some c)
    (hsc : c.scopes = none ∨ c.scopes = some [])
    (hval : credentialValid now c = true) :
    get_credentials now store cs refreshFn user_email required_scopes
      session_id = some c := by
  unfold get_credentials
  rw [hres]
  rcases hsc with hsc | hsc <;>
    simp [hsc, credentialAfterValidity, hval]

/-- The session-store and credential-store contents of the C4
counterexample: one session for `user@example.com` whose granted scope list
is empty (as `store_session` records when handed `scopes=None`). -/
def emptyScopesSession : SessionInfo :=
  { access_token := "tok"
    refresh_token := none
    token_uri := "https://oauth2.googleapis.com/token"
    client_id := none
    client_secret := none
    scopes := []
    expiry := none
    session_id := none }

/-- Store holding only the empty-scopes session. -/
def emptyScopesStore : OAuthStore :=
  { sessions := [("user@example.com", emptyScopesSession)]
    session_mapping := [] }

/-- C4 counterexample: a resolved credential whose granted scope set is
empty does NOT satisfy "any required scope missing ⟹ absent": with
`required_scopes = ["…/auth/drive"]` (none of which is granted) the
credential is still returned, because the scope check is skipped for a
falsy scope list. -/
theorem missing_scope_still_returned :
    get_credentials 0 emptyScopesStore [] (fun _ => none)
      (some "user@example.com")
      (some ["https://www.googleapis.com/auth/drive"]) none =
    some { token := some "tok"
           refresh_token := none
           token_uri := some "https://oauth2.googleapis.com/token"
           client_id := none
           client_secret := none
           scopes := some []
           expiry := none } := by
  rfl

/-- C4 (amended): when the resolved credential carries a non-empty granted
scope list and some required scope is not in it, `get_credentials` returns
`none` rather than the credential. -/
theorem missing_scope_returns_none
    (now : Int) (store : OAuthStore) (cs : CredStore)
    (refreshFn : Credential → Option Credential)
    (user_email : Option String) (session_id : Option String)
    (required : List String) (c : Credential) (granted : List String)
    (s : String)
    (hres : resolveCredential store cs user_email session_id = some c)
    (hsc : c.scopes = some granted) (hne : granted ≠ [])
    (hreq : s ∈ required) (hmiss : s ∉ granted) :
    get_credentials now store cs refreshFn user_email (some required)
      session_id = none := by
  unfold get_credentials
  rw [hres]
  have hall : required.all (fun t => granted.contains t) = false := by
    rw [List.all_eq_false]
    exact ⟨s, hreq, by simpa using hmiss⟩
  simp [hsc, hne, hall]
  intro h
  exact absurd (h s hreq) hmiss

/-! ### Timestamp round trip and persist-then-reload -/

theorem charToDigit_digitChar (d : Nat) (h : d < 10) :
    charToDigit (digitChar d) = some d := by
  interval_cases d <;> rfl

theorem isoToNatAux_append (xs ys : List Char) (acc : Nat) :
    isoToNatAux (xs ++ ys) acc =
      (isoToNatAux xs acc).bind (fun a => isoToNatAux ys a) := by
  induction xs generalizing acc with
  | nil => simp [isoToNatAux]
  | cons c rest ih =>
    simp only [List.cons_append, isoToNatAux]
    match charToDigit c with
    | some d => simp [ih]
    | none => simp

theorem isoToNatAux_digits (n : Nat) : ∀ acc : Nat,
    isoToNatAux (natDigitsRev n).reverse acc =
      some (acc * 10 ^ (natDigitsRev n).length + n) := by
  induction n using Nat.strong_induction_on with
  | _ n ih =>
    intro acc
    by_cases h : n = 0
    · subst h
      simp [natDigitsRev, isoToNatAux]
    · rw [natDigitsRev]
      simp only [h, dif_neg, not_false_iff]
      rw [List.reverse_cons, isoToNatAux_append]
      have hdiv : n / 10 < n := Nat.div_lt_self (Nat.pos_of_ne_zero h) (by norm_num)
      rw [ih (n / 10) hdiv acc]
      simp only [Option.some_bind, Option.bind_some, isoToNatAux,
        charToDigit_digitChar (n % 10) (Nat.mod_lt n (by norm_num)),
        List.length_cons]
      congr 1
      rw [pow_succ]
      set B := 10 ^ (natDigitsRev (n / 10)).length
      have h10 : n / 10 * 10 + n % 10 = n := by omega
      calc (acc * B + n / 10) * 10 + n % 10
          = acc * (B * 10) + (n / 10 * 10 + n % 10) := by ring
        _ = acc * (B * 10) + n := by rw [h10]

theorem isoToNat_natToIso (n : Nat) : isoToNat (natToIso n) = some n := by
  by_cases h : n = 0
  · subst h
    rfl
  · have hne : natDigitsRev n ≠ [] := by
      rw [natDigitsRev]
      simp [h]
    rcases List.exists_cons_of_ne_nil (by simpa using hne) with ⟨c, rest, hcr⟩
    have hrev : (natDigitsRev n).reverse ≠ [] := by simp [hne]
    rcases List.exists_cons_of_ne_nil hrev with ⟨c2, rest2, hcr2⟩
    unfold natToIso
    rw [if_neg h, hcr2]
    show isoToNatAux (c2 :: rest2) 0 = some n
    rw [← hcr2, isoToNatAux_digits n 0]
    simp

theorem natToIso_ne_nil (n : Nat) : natToIso n ≠ [] := by
  unfold natToIso
  by_cases h : n = 0
  · simp [h]
  · rw [if_neg h]
    have hne : natDigitsRev n ≠ [] := by
      rw [natDigitsRev]
      simp [h]
    simpa using hne

theorem parse_serialize (d : StateData) :
    parsePersistedEntry (serializeStateData d) = some d := by
  rcases d with ⟨sid, ea, ca⟩
  rcases ea with _ | e <;> rcases ca with _ | c <;>
    simp [serializeStateData, parsePersistedEntry, parseOptTimestamp,
      isoToNat_natToIso, natToIso_ne_nil]

theorem load_foldl (m : List (String × StateData)) :
    ∀ acc : List (String × StateData), DictWF m →
      (∀ kv ∈ m, dictGet acc kv.1 = none) →
      (saveOauthStates m).foldl
        (fun acc kv =>
          match parsePersistedEntry kv.2 with
          | some d => dictInsert acc kv.1 d
          | none => acc) acc = acc ++ m := by
  induction m with
  | nil => intro acc _ _; simp [saveOauthStates]
  | cons kv rest ih =>
    intro acc hwf hacc
    rcases hwf with _ | ⟨hhead, hrest⟩
    simp only [saveOauthStates, List.map_cons, List.foldl_cons]
    rw [show (saveOauthStates rest) = rest.map
        (fun kv => (kv.1, serializeStateData kv.2)) from rfl] at ih
    have hstep : (match parsePersistedEntry (serializeStateData kv.2) with
        | some d => dictInsert acc kv.1 d
        | none => acc) = acc ++ [kv] := by
      rw [parse_serialize]
      exact dictInsert_eq_append acc kv.1 kv.2 (hacc kv (List.mem_cons_self kv rest))
    rw [hstep, ih (acc ++ [kv]) hrest ?hnew]
    · rw [List.append_assoc]
      rfl
    case hnew =>
      intro b hb
      rw [dictGet_append]
      rw [hacc b (List.mem_cons_of_mem kv hb)]
      have hbne : ¬ kv.1 = b.1 := hhead b hb
      simp [dictGet, hbne]

/-- C5: persisting the pending-state table and reloading it in a fresh
store reconstructs exactly the entries (session id, creation and expiry
timestamps) and sweeps every expired one: persist-then-reload is exactly
the expiry sweep of the live table. -/
theorem persist_reload_exact (m : List (String × StateData)) (now : Nat)
    (hwf : DictWF m) :
    loadOauthStates now (saveOauthStates m) = cleanupExpiredOauthStates now m := by
  unfold loadOauthStates
  rw [load_foldl m [] hwf (fun kv _ => rfl)]
  rfl

/-! ### Base64 filename round trip -/

theorem charToSextet_sextetToChar :
    ∀ n : Nat, n < 64 → charToSextet (sextetToChar n) = some n := by
  decide

theorem sextetToChar_ne_pad :
    ∀ n : Nat, n < 64 → ¬ (sextetToChar n = '=') := by
  decide

theorem dropWhile_eq_self_of_all (l : List Char)
    (h : ∀ c ∈ l, ¬ (c = '=')) :
    l.dropWhile (fun c => c = '=') = l := by
  cases l with
  | nil => rfl
  | cons c rest =>
    rw [List.dropWhile_cons]
    simp [h c (List.mem_cons_self c rest)]

theorem rstripPadding_append (xs ys : List Char)
    (h : ∀ c ∈ xs, ¬ (c = '=')) :
    rstripPadding (xs ++ ys) = xs ++ rstripPadding ys := by
  unfold rstripPadding
  rw [List.reverse_append, List.dropWhile_append]
  by_cases hd : (ys.reverse.dropWhile (fun c => c = '=')).isEmpty
  · rw [if_pos hd]
    rw [List.isEmpty_iff] at hd
    rw [hd, dropWhile_eq_self_of_all xs.reverse (fun c hc => h c (by simpa using hc))]
    simp
  · rw [if_neg hd]
    simp

theorem padB64_append (xs ys : List Char) (h : xs.length % 4 = 0) :
    padB64 (xs ++ ys) = xs ++ padB64 ys := by
  unfold padB64
  rw [List.length_append]
  have hmod : (xs.length + ys.length) % 4 = ys.length % 4 := by omega
  rw [hmod]
  by_cases h4 : 4 - ys.length % 4 ≠ 4 <;> simp [h4, List.append_assoc]

/-- C7: the credential store's email-to-filename encoding round-trips
exactly: decoding the encoded filename restores the email's byte sequence
for every valid byte sequence (hence for every valid email string, unicode
included, via the UTF-8 bijection). -/
theorem email_filename_roundtrip (bs : List Nat) (h : validBytes bs = true) :
    _filename_to_email (_email_to_filename bs) = some bs := by
  induction bs using b64EncodeBytes.induct with
  | case1 => rfl
  | case2 a =>
    simp only [validBytes, List.all_cons, List.all_nil, Bool.and_true,
      decide_eq_true_eq] at h
    have h1 : a / 4 < 64 := by omega
    have h2 : a % 4 * 16 < 64 := by
      have := Nat.mod_lt a (show 0 < 4 by norm_num)
      omega
    have hchunk : ∀ x ∈ [sextetToChar (a / 4), sextetToChar (a % 4 * 16)],
        ¬ (x = '=') := by
      intro x hx
      simp only [List.mem_cons, List.not_mem_nil, or_false] at hx
      rcases hx with rfl | rfl
      · exact sextetToChar_ne_pad _ h1
      · exact sextetToChar_ne_pad _ h2
    unfold _email_to_filename _filename_to_email
    rw [show b64EncodeBytes [a] =
      [sextetToChar (a / 4), sextetToChar (a % 4 * 16)] ++ ['=', '='] from rfl]
    rw [rstripPadding_append _ _ hchunk]
    rw [show rstripPadding ['=', '='] = [] from rfl]
    rw [show ([sextetToChar (a / 4), sextetToChar (a % 4 * 16)] ++ [] :
      List Char) = [sextetToChar (a / 4), sextetToChar (a % 4 * 16)] by simp]
    rw [show padB64 [sextetToChar (a / 4), sextetToChar (a % 4 * 16)] =
      [sextetToChar (a / 4), sextetToChar (a % 4 * 16), '=', '='] by
        simp [padB64, List.replicate]]
    simp [b64DecodeChars, b64DecodeBlock, charToSextet_sextetToChar _ h1,
      charToSextet_sextetToChar _ h2]
    omega
  | case3 a b =>
    simp only [validBytes, List.all_cons, List.all_nil, Bool.and_true,
      Bool.and_eq_true, decide_eq_true_eq] at h
    obtain ⟨ha, hb⟩ := h
    have h1 : a / 4 < 64 := by omega
    have h2 : a % 4 * 16 + b / 16 < 64 := by
      have := Nat.mod_lt a (show 0 < 4 by norm_num)
      omega
    have h3 : b % 16 * 4 < 64 := by
      have := Nat.mod_lt b (show 0 < 16 by norm_num)
      omega
    have hchunk : ∀ x ∈ [sextetToChar (a / 4), sextetToChar (a % 4 * 16 + b / 16),
        sextetToChar (b % 16 * 4)], ¬ (x = '=') := by
      intro x hx
      simp only [List.mem_cons, List.not_mem_nil, or_false] at hx
      rcases hx with rfl | rfl | rfl
      · exact sextetToChar_ne_pad _ h1
      · exact sextetToChar_ne_pad _ h2
      · exact sextetToChar_ne_pad _ h3
    unfold _email_to_filename _filename_to_email
    rw [show b64EncodeBytes [a, b] =
      [sextetToChar (a / 4), sextetToChar (a % 4 * 16 + b / 16),
       sextetToChar (b % 16 * 4)] ++ ['='] from rfl]
    rw [rstripPadding_append _ _ hchunk]
    rw [show rstripPadding ['='] = [] from rfl]
    rw [show ([sextetToChar (a / 4), sextetToChar (a % 4 * 16 + b / 16),
      sextetToChar (b % 16 * 4)] ++ [] : List Char) =
      [sextetToChar (a / 4), sextetToChar (a % 4 * 16 + b / 16),
       sextetToChar (b % 16 * 4)] by simp]
    rw [show padB64 [sextetToChar (a / 4), sextetToChar (a % 4 * 16 + b / 16),
      sextetToChar (b % 16 * 4)] =
      [sextetToChar (a / 4), sextetToChar (a % 4 * 16 + b / 16),
       sextetToChar (b % 16 * 4), '='] by simp [padB64, List.replicate]]
    have hc3 := sextetToChar_ne_pad _ h3
    simp [b64DecodeChars, b64DecodeBlock, charToSextet_sextetToChar _ h1,
      charToSextet_sextetToChar _ h2, charToSextet_sextetToChar _ h3, hc3]
    constructor
    · omega
    · omega
  | case4 a b c rest ih =>
    simp only [validBytes, List.all_cons, Bool.and_eq_true,
      decide_eq_true_eq] at h
    obtain ⟨ha, hb, hc, hrest⟩ := h
    have h1 : a / 4 < 64 := by omega
    have h2 : a % 4 * 16 + b / 16 < 64 := by
      have := Nat.mod_lt a (show 0 < 4 by norm_num)
      omega
    have h3 : b % 16 * 4 + c / 64 < 64 := by
      have := Nat.mod_lt b (show 0 < 16 by norm_num)
      omega
    have h4 : c % 64 < 64 := Nat.mod_lt c (by norm_num)
    have hih := ih hrest
    have hchunk : ∀ x ∈ [sextetToChar (a / 4), sextetToChar (a % 4 * 16 + b / 16),
        sextetToChar (b % 16 * 4 + c / 64), sextetToChar (c % 64)],
        ¬ (x = '=') := by
      intro x hx
      simp only [List.mem_cons, List.not_mem_nil, or_false] at hx
      rcases hx with rfl | rfl | rfl | rfl
      · exact sextetToChar_ne_pad _ h1
      · exact sextetToChar_ne_pad _ h2
      · exact sextetToChar_ne_pad _ h3
      · exact sextetToChar_ne_pad _ h4
    have hencode : b64EncodeBytes (a :: b :: c :: rest) =
        [sextetToChar (a / 4), sextetToChar (a % 4 * 16 + b / 16),
         sextetToChar (b % 16 * 4 + c / 64), sextetToChar (c % 64)] ++
        b64EncodeBytes rest := by
      simp [b64EncodeBytes]
    have n3 := hchunk (sextetToChar (b % 16 * 4 + c / 64)) (by simp)
    have n4 := hchunk (sextetToChar (c % 64)) (by simp)
    unfold _email_to_filename at hih ⊢
    unfold _filename_to_email at hih ⊢
    rw [hencode, rstripPadding_append _ _ hchunk,
      padB64_append _ _ (by simp)]
    simp [b64DecodeChars, b64DecodeBlock, charToSextet_sextetToChar _ h1,
      charToSextet_sextetToChar _ h2, charToSextet_sextetToChar _ h3,
      charToSextet_sextetToChar _ h4, n3, n4, hih]
    refine ⟨by omega, by omega, by omega⟩

/-! ### Concrete witnesses -/

/-- A neutral session-info record for concrete scenarios. -/
def demoSession : SessionInfo :=
  { access_token := "tok"
    refresh_token := none
    token_uri := "https://oauth2.googleapis.com/token"
    client_id := none
    client_secret := none
    scopes := ["https://www.googleapis.com/auth/drive"]
    expiry := none
    session_id := none }

theorem oauth_state_single_use_witness :
    (validate_and_consume_oauth_state 200 "abc123" none
      [("abc123", { session_id := none, expires_at := some 700,
                    created_at := some 100 })]).1 =
      .ok { session_id := none, expires_at := some 700, created_at := some 100 } ∧
    (validate_and_consume_oauth_state 300 "abc123" none
      (validate_and_consume_oauth_state 200 "abc123" none
        [("abc123", { session_id := none, expires_at := some 700,
                      created_at := some 100 })]).2).1 =
      .error "Invalid or expired OAuth state parameter" :=
  oauth_state_single_use [] _ 100 200 300 "abc123" none none none 600
    (by decide) (by decide) (by decide) (Or.inr rfl) rfl

theorem oauth_state_session_mismatch_destroys_witness :
    (validate_and_consume_oauth_state 200 "st" (some "s2")
      [("st", { session_id := some "s1", expires_at := some 700,
                created_at := some 100 })]).1 =
      .error "OAuth state does not match the initiating session" ∧
    dictGet (validate_and_consume_oauth_state 200 "st" (some "s2")
      [("st", { session_id := some "s1", expires_at := some 700,
                created_at := some 100 })]).2 "st" = none ∧
    (validate_and_consume_oauth_state 300 "st" (some "s1")
      (validate_and_consume_oauth_state 200 "st" (some "s2")
        [("st", { session_id := some "s1", expires_at := some 700,
                  created_at := some 100 })]).2).1 =
      .error "Invalid or expired OAuth state parameter" :=
  have h := oauth_state_session_mismatch_destroys [] _ 100 200 "st" "s1" "s2" 600
    (by decide) (by decide) (by decide) (by decide) (by decide) (by decide) rfl
  ⟨h.1, h.2.1, h.2.2 300 (some "s1")⟩

theorem bound_state_validates_without_session_witness :
    (validate_and_consume_oauth_state 200 "st2" none
      [("st2", { session_id := some "s1", expires_at := some 700,
                 created_at := some 100 })]).1 =
      .ok { session_id := some "s1", expires_at := some 700,
            created_at := some 100 } ∧
    dictGet (validate_and_consume_oauth_state 200 "st2" none
      [("st2", { session_id := some "s1", expires_at := some 700,
                 created_at := some 100 })]).2 "st2" = none :=
  bound_state_validates_without_session [] _ 100 200 "st2" "s1" 600
    (by decide) (by decide) (by decide) (by decide) rfl

theorem expired_state_never_validates_witness :
    store_oauth_state 100 "xyz" none 0 [] =
      .ok [("xyz", { session_id := none, expires_at := some 100,
                     created_at := some 100 })] ∧
    dictGet (cleanupExpiredOauthStates 100
      [("xyz", { session_id := none, expires_at := some 100,
                 created_at := some 100 })]) "xyz" = none ∧
    (validate_and_consume_oauth_state 100 "xyz" none
      [("xyz", { session_id := none, expires_at := some 100,
                 created_at := some 100 })]).1 =
      .error "Invalid or expired OAuth state parameter" ∧
    dictGet (validate_and_consume_oauth_state 100 "xyz" none
      [("xyz", { session_id := none, expires_at := some 100,
                 created_at := some 100 })]).2 "xyz" = none :=
  have h := expired_state_never_validates
    [("xyz", { session_id := none, expires_at := some 100,
               created_at := some 100 })] 100 "xyz" none
    { session_id := none, expires_at := some 100, created_at := some 100 } 100
    (by simp [DictWF]) (by decide) rfl rfl (by decide)
  ⟨rfl, h.1, h.2.1, h.2.2⟩

/-- A pending-state table with one live and one expired entry (at instant
150). -/
def demoStates : List (String × StateData) :=
  [("live", { session_id := some "s", expires_at := some 700,
              created_at := some 100 }),
   ("dead", { session_id := none, expires_at := some 120,
              created_at := some 100 })]

theorem persist_reload_exact_witness :
    DictWF demoStates ∧
    loadOauthStates 150 (saveOauthStates demoStates) =
      cleanupExpiredOauthStates 150 demoStates ∧
    cleanupExpiredOauthStates 150 demoStates =
      [("live", { session_id := some "s", expires_at := some 700,
                  created_at := some 100 })] :=
  ⟨by simp [demoStates, DictWF], persist_reload_exact _ 150 (by simp [demoStates, DictWF]),
   by rfl⟩

/-- The UTF-8 byte sequence of the email `jo.hn_doe+x@exämple.com`. -/
def demoEmailBytes : List Nat :=
  [106, 111, 46, 104, 110, 95, 100, 111, 101, 43, 120, 64,
   101, 120, 195, 164, 109, 112, 108, 101, 46, 99, 111, 109]

theorem email_filename_roundtrip_witness :
    validBytes demoEmailBytes = true ∧
    _filename_to_email (_email_to_filename demoEmailBytes) =
      some demoEmailBytes :=
  ⟨by decide, email_filename_roundtrip demoEmailBytes (by decide)⟩

theorem single_user_email_spec_witness :
    get_single_user_email [("a@b.com", demoSession)] = some "a@b.com" ∧
    get_single_user_email [] = none ∧
    get_single_user_email
      [("a@b.com", demoSession), ("c@d.com", demoSession)] = none :=
  ⟨(single_user_email_spec _).1 "a@b.com" demoSession rfl,
   (single_user_email_spec _).2 (by decide),
   (single_user_email_spec _).2 (by decide)⟩

/-- A credential file whose scopes field is null, as the file store can
hold (credential_store.py:133 passes `creds_data.get("scopes")`). -/
def noScopesCredFile : CredFile :=
  { token := some "tok"
    refresh_token := none
    token_uri := some "https://oauth2.googleapis.com/token"
    client_id := none
    client_secret := none
    scopes := none
    expiry := none }

theorem scope_check_skipped_witness :
    get_credentials 0 { sessions := [], session_mapping := [] }
      [("u@e.com", noScopesCredFile)] (fun _ => none) (some "u@e.com")
      (some ["https://www.googleapis.com/auth/drive"]) none =
    some { token := some "tok"
           refresh_token := none
           token_uri := some "https://oauth2.googleapis.com/token"
           client_id := none
           client_secret := none
           scopes := none
           expiry := none } :=
  scope_check_skipped_when_scopes_falsy 0
    { sessions := [], session_mapping := [] }
    [("u@e.com", noScopesCredFile)] (fun _ => none) (some "u@e.com")
    (some ["https://www.googleapis.com/auth/drive"]) none _
    rfl (Or.inl rfl) rfl

theorem missing_scope_returns_none_witness :
    get_credentials 0 { sessions := [("a@b.com", demoSession)],
                        session_mapping := [] }
      [] (fun _ => none) (some "a@b.com")
      (some ["https://www.googleapis.com/auth/drive",
             "https://www.googleapis.com/auth/documents"]) none = none :=
  missing_scope_returns_none 0
    { sessions := [("a@b.com", demoSession)], session_mapping := [] }
    [] (fun _ => none) (some "a@b.com") none
    ["https://www.googleapis.com/auth/drive",
     "https://www.googleapis.com/auth/documents"] _
    ["https://www.googleapis.com/auth/drive"]
    "https://www.googleapis.com/auth/documents"
    rfl rfl (by decide) (by decide) (by decide)

end DriveSynapsis
